import Mathlib

/-!
Verification development for the `patterns` repository (structural design
patterns in Python): shallow embeddings of `src/structural/flyweight.py`,
`adapter.py`, `bridge.py`, `composite.py`, `decorator.py`, `facade.py`,
and theorems about them.

Modelling conventions:
* A Python `str` is a Lean `String`.
* A Python `set` of strings is represented by its iteration order, a
  `List String` without duplicates.  CPython fixes no iteration order for a
  set, so properties quantify over the enumeration where the order matters.
* A Python `dict` is an insertion-ordered association list; `d[k] = v`
  overwrites in place when `k` is present and appends otherwise.
* Object identity (references) is modelled by an arena: constructed objects
  live in a store, and a "reference" is the index into that store.
-/

namespace Patterns

/-! ## Flyweight: `src/structural/flyweight.py` -/

/-- `FlyweightFactory.get_key` (flyweight.py lines 43-49):
`return "_".join(state)`, joining the set in its iteration order.
The source does NOT sort the state before joining. -/
def get_key (state : List String) : String :=
  match state with
  | [] => ""
  | s :: rest => rest.foldl (fun acc x => acc ++ "_" ++ x) s

/-- The `Flyweight` dataclass (flyweight.py lines 15-27): it stores the
shared state it was constructed with. -/
structure Flyweight where
  shared_state : List String
deriving DecidableEq

/-- The mutable state behind `FlyweightFactory`.  `_flyweights` is a
CLASS-level dict (flyweight.py line 37), so there is a single mapping shared
by every factory instance; instances carry no per-instance state.  The dict
maps cache keys to references into `store`, the arena of every `Flyweight`
object constructed so far (a reference is its index). -/
structure FactoryState where
  flyweights : List (String × Nat)
  store : List Flyweight
deriving DecidableEq

/-- `dict.get(k)`: first binding of `k`, if any. -/
def dictGet : List (String × Nat) → String → Option Nat
  | [], _ => none
  | (k, v) :: d, k₀ => if k = k₀ then some v else dictGet d k₀

/-- `d[k] = v`: overwrite in place if `k` is bound, else append
(Python dicts preserve insertion order). -/
def dictSet : List (String × Nat) → String → Nat → List (String × Nat)
  | [], k₀, v₀ => [(k₀, v₀)]
  | (k, v) :: d, k₀, v₀ =>
    if k = k₀ then (k₀, v₀) :: d else (k, v) :: dictSet d k₀ v₀

/-- The keys of the dict, in order. -/
def dictKeys (d : List (String × Nat)) : List String := d.map Prod.fst

/-- The class attribute `_flyweights: Dict[str, Flyweight] = {}` before any
factory has run: empty mapping, no object constructed yet. -/
def emptyFactory : FactoryState := ⟨[], []⟩

/-- `FlyweightFactory.get_flyweight` (flyweight.py lines 51-65).
`if not self._flyweights.get(key)` is a miss exactly when the key is absent
(a `Flyweight` dataclass instance is always truthy).  On a miss a new
`Flyweight(shared_state)` is constructed and stored under the key; the
method returns `self._flyweights[key]`.  Result: updated state and the
reference returned. -/
def get_flyweight (st : FactoryState) (shared_state : List String) :
    FactoryState × Nat :=
  let key := get_key shared_state
  match dictGet st.flyweights key with
  | some fid => (st, fid)
  | none =>
    let fid := st.store.length
    (⟨dictSet st.flyweights key fid, st.store ++ [⟨shared_state⟩]⟩, fid)

/-- `FlyweightFactory.__init__` (flyweight.py lines 39-41): for each state in
`initial_flyweights` it constructs a new `Flyweight(state)` and assigns it
under `get_key state` — overwriting any existing binding.  Because
`_flyweights` is class-level, construction starts from the current shared
state `st`, not from an empty dict. -/
def factoryInit (st : FactoryState) (initial : List (List String)) :
    FactoryState :=
  initial.foldl
    (fun s state =>
      ⟨dictSet s.flyweights (get_key state) s.store.length,
       s.store ++ [⟨state⟩]⟩)
    st

/-- `FlyweightFactory.list_flyweights` (flyweight.py lines 67-70): reports
`len(self._flyweights)` and the keys. -/
def list_flyweights (st : FactoryState) : Nat × List String :=
  (st.flyweights.length, dictKeys st.flyweights)

/-- The count reported by `list_flyweights`. -/
def flyweightCount (st : FactoryState) : Nat := st.flyweights.length

/-- A sequence of `get_flyweight` calls, keeping only the state. -/
def runRequests (st : FactoryState) (rs : List (List String)) : FactoryState :=
  rs.foldl (fun s r => (get_flyweight s r).1) st

/-- The five (brand, model, color) triples seeded in the `__main__` block of
flyweight.py, each written in source order as one enumeration of the set
literal. -/
def initialCars : List (List String) :=
  [["Chevrolet", "Camaro2018", "pink"],
   ["Mercedes Benz", "C300", "black"],
   ["Mercedes Benz", "C500", "red"],
   ["BMW", "M5", "red"],
   ["BMW", "X6", "white"]]

/-! ## Adapter: `src/structural/adapter.py` -/

/-- The Python exception classes the scripts can raise. -/
inductive PyError where
  | attributeError
  | assertionError
  | valueError
  | expatError
deriving DecidableEq

/-- A JSON-like Python value: a string or a dict (insertion-ordered). -/
inductive JVal where
  | str : String → JVal
  | dict : List (String × JVal) → JVal

mutual

/-- One XML element `<name>content</name>`, as `xmltodict.parse` reads it on
the fragment shapes this repository uses (a tag enclosing either text or a
single nested element).  Returns the parsed `(tag, value)` pair and the
remaining input.  The fuel bounds the nesting depth. -/
def parseElem : Nat → List Char → Option ((String × JVal) × List Char)
  | 0, _ => none
  | fuel + 1, cs =>
    match cs with
    | '<' :: rest =>
      let name := rest.takeWhile (· ≠ '>')
      match rest.dropWhile (· ≠ '>') with
      | '>' :: body =>
        match parseContent fuel body with
        | some (v, rest₁) =>
          if rest₁.take (name.length + 3) = '<' :: '/' :: (name ++ ['>'])
          then some ((⟨name⟩, v), rest₁.drop (name.length + 3))
          else none
        | none => none
      | _ => none
    | _ => none

/-- The content of an element: a nested element (becoming a one-entry dict,
as in `xmltodict`) or raw text (becoming a string). -/
def parseContent : Nat → List Char → Option (JVal × List Char)
  | 0, _ => none
  | fuel + 1, cs =>
    match cs with
    | '<' :: '/' :: _ => none
    | '<' :: rest =>
      match parseElem fuel ('<' :: rest) with
      | some ((n, v), rest₁) => some (JVal.dict [(n, v)], rest₁)
      | none => none
    | _ => some (JVal.str ⟨cs.takeWhile (· ≠ '<')⟩, cs.dropWhile (· ≠ '<'))

end

/-- `xmltodict.parse`: the whole input must be one element; the result wraps
it in a dict keyed by the root tag. -/
def xmltodict_parse (s : String) : Option JVal :=
  match parseElem (s.data.length + 1) s.data with
  | some ((n, v), []) => some (JVal.dict [(n, v)])
  | _ => none

/-- `Adaptee.specific_request` (adapter.py lines 32-33): the fixed XML byte
string (ASCII, modelled as a string). -/
def specific_request : String :=
  "<xml_data><some_critical_data>very_much_business_value</some_critical_data></xml_data>"

/-- `Target.request` (adapter.py lines 21-22). -/
def Target_request : JVal :=
  .dict [("json_data", .dict [("some_critical_data", .str "very_much_business_value")])]

/-- `json.loads(json.dumps(x))`: on values made of dicts and strings the
JSON round trip returns an equal value (it only turns `OrderedDict` into
plain `dict`, which this model does not distinguish). -/
def json_roundtrip (v : JVal) : JVal := v

/-- `Adapter.request` (adapter.py lines 42-44):
`json.loads(json.dumps(xmltodict.parse(self.specific_request())))`. -/
def Adapter_request : Option JVal :=
  (xmltodict_parse specific_request).map json_roundtrip

/-- The three services the `__main__` block passes to `client_code`. -/
inductive Service where
  | target
  | adaptee
  | adapter

/-- Attribute lookup of `request` on each object: `Target` and `Adapter`
define the method, `Adaptee` does not (lookup raises `AttributeError`).
A present method may itself raise (`xmltodict` raises `ExpatError` on
malformed input). -/
def request_method : Service → Option (Except PyError JVal)
  | .target => some (.ok Target_request)
  | .adaptee => none
  | .adapter =>
    some (match Adapter_request with
          | some v => .ok v
          | none => .error .expatError)

/-- `isinstance(data, dict)`. -/
def isDict : JVal → Bool
  | .dict _ => true
  | .str _ => false

/-- `client_code` (adapter.py lines 47-55): call `target.request()`
(raising `AttributeError` when the attribute is missing), assert the result
is a dict, print it.  The result is the printed value or the exception. -/
def client_code (s : Service) : Except PyError JVal :=
  match request_method s with
  | none => .error .attributeError
  | some (.error e) => .error e
  | some (.ok data) =>
    if isDict data then .ok data else .error .assertionError

/-- The demo's `try/except` around `client_code(adaptee_service)`
(adapter.py lines 64-68): it catches exactly `AttributeError`, printing the
expected message; any other exception would propagate.  The payload is what
gets printed: the data (left) or the handler's message (right). -/
def adaptee_demo_section : Except PyError (JVal ⊕ String) :=
  match client_code .adaptee with
  | .ok v => .ok (.inl v)
  | .error .attributeError => .ok (.inr "Adaptee doesn't have 'request' method")
  | .error e => .error e

/-! ## Bridge: `src/structural/bridge.py` -/

/-- `string.ascii_uppercase + string.digits`, the population
`ExternalAPIImplementation.get_user` draws from. -/
def token_population : List Char :=
  "ABCDEFGHIJKLMNOPQRSTUVWXYZ0123456789".data

/-- A possible value of `"".join(random.choices(token_population, k=6))`:
the random draw is the model's parameter. -/
def isValidToken (t : String) : Bool :=
  t.length == 6 && t.data.all (· ∈ token_population)

/-- `CloudAPIImplementation.get_user` (bridge.py lines 58-59). -/
def cloud_get_user : String × String :=
  ("CloudUser", "CloudAPIImplementation")

/-- `CloudAPIImplementation.login` (bridge.py lines 54-56). -/
def cloud_login : String :=
  "Logged to cloud platform as user " ++ cloud_get_user.1
    ++ " with role " ++ cloud_get_user.2

/-- `AbstractAPI.authenticate` over a `CloudAPIImplementation`:
it delegates to `login`. -/
def cloud_authenticate : String := cloud_login

/-- `ExternalAPIImplementation.get_user` (bridge.py lines 68-70): the token
is the 6-character random draw, passed in as the parameter. -/
def external_get_user (token : String) : String × String × String :=
  ("ExternalUser", "ExternalAPIImplementation", token)

/-- `ExternalAPIImplementation.login` (bridge.py lines 64-66). -/
def external_login (token : String) : String :=
  "Logged to cloud platform via external API token "
    ++ (external_get_user token).2.2
    ++ " as " ++ (external_get_user token).1
    ++ " with role " ++ (external_get_user token).2.1

/-- `AbstractAPI.authenticate` over an `ExternalAPIImplementation`. -/
def external_authenticate (token : String) : String := external_login token

/-! ## Composite: `src/structural/composite.py` -/

/-- The concrete `Loader` subclasses: `LoadNode` (leaf) and `LoadCluster`
(container). -/
inductive LoaderKind where
  | node
  | cluster
deriving DecidableEq

/-- One `Loader` object: its class, `name`, `_parent` reference (`none`
covers both "never assigned" and "assigned None") and, for clusters, the
`_children` list of references. -/
structure LoaderObj where
  kind : LoaderKind
  name : String
  parent : Option Nat
  children : List Nat
deriving DecidableEq

/-- The heap of `Loader` objects; a reference is an index. -/
abbrev LoaderWorld := List LoaderObj

/-- `add_node` (composite.py lines 40-41 and 91-97): the base class method is
`pass`, so on a `LoadNode` nothing at all happens; `LoadCluster` overrides it
to append the component to `_children` and set the component's parent. -/
def add_node (w : LoaderWorld) (self other : Nat) : LoaderWorld :=
  match w[self]? with
  | some o =>
    match o.kind with
    | .cluster =>
      let w₁ := w.set self { o with children := o.children ++ [other] }
      match w₁[other]? with
      | some c => w₁.set other { c with parent := some self }
      | none => w₁
    | .node => w
  | none => w

/-- `list.remove`: drop the first occurrence, or fail (Python raises
`ValueError` when the element is absent). -/
def removeFirst : List Nat → Nat → Option (List Nat)
  | [], _ => none
  | x :: xs, y => if x = y then some xs else (removeFirst xs y).map (x :: ·)

/-- `remove_node` (composite.py lines 43-44 and 99-101): `pass` on a leaf;
on a cluster `self._children.remove(component)` — which raises `ValueError`
when the component is absent — followed by `component.parent = None`. -/
def remove_node (w : LoaderWorld) (self other : Nat) : Except PyError LoaderWorld :=
  match w[self]? with
  | some o =>
    match o.kind with
    | .cluster =>
      match removeFirst o.children other with
      | some ch =>
        let w₁ := w.set self { o with children := ch }
        match w₁[other]? with
        | some c => .ok (w₁.set other { c with parent := none })
        | none => .ok w₁
      | none => .error .valueError
    | .node => .ok w
  | none => .ok w

/-- `start_load` (composite.py lines 72-73 and 107-117): a leaf reports
itself; a cluster recurses through its children and sums the results.  The
fuel bounds the recursion depth (Python would not terminate on a cyclic
structure); it is ample for the concrete worlds considered. -/
def start_load : Nat → LoaderWorld → Nat → String
  | 0, _, _ => ""
  | fuel + 1, w, i =>
    match w[i]? with
    | some o =>
      match o.kind with
      | .node => o.name ++ " started load.\n"
      | .cluster =>
        "Cluster " ++ o.name ++ " started load:\n"
          ++ String.join (o.children.map fun c => start_load fuel w c)
    | none => ""

/-- The world of the demo's first composite steps: a fresh
`LoadCluster("Master Loader")` and a fresh `LoadNode("Simple load node")`. -/
def masterWorld : LoaderWorld :=
  [⟨.cluster, "Master Loader", none, []⟩,
   ⟨.node, "Simple load node", none, []⟩]

/-! ## Decorator: `src/structural/decorator.py` -/

/-- A `DataReporter` object graph: the basic reporter or a decorator
wrapping another reporter.  The MQTT decorator carries its mutable
`_mqtt_client` field (class default `None`). -/
inductive DataReporter where
  | basic
  | shadow (inner : DataReporter)
  | mqtt (client : Option String) (inner : DataReporter)
deriving DecidableEq

/-- `report_data` (decorator.py lines 28-29, 63-69, 85-90): returns the
reported string and the object as left after the call.  The MQTT decorator
first runs `setup_mqtt_client` (setting `_mqtt_client` to "MQTT Client up"),
delegates, appends its suffix, then runs `teardown_mqtt_client` (leaving
`_mqtt_client` at "MQTT Client down"). -/
def report_data : DataReporter → String × DataReporter
  | .basic =>
    ("I'm reporting basic charging session data to device' shadow", .basic)
  | .shadow inner =>
    ((report_data inner).1 ++ " and added meter values to device' shadow",
     .shadow (report_data inner).2)
  | .mqtt _ inner =>
    ((report_data inner).1 ++ " and sent meter values to MQTT topic",
     .mqtt (some "MQTT Client down") (report_data inner).2)

/-- A reporter graph with every `_mqtt_client` field blanked: the part of
the object state fixed at construction time. -/
def eraseClient : DataReporter → DataReporter
  | .basic => .basic
  | .shadow inner => .shadow (eraseClient inner)
  | .mqtt _ inner => .mqtt none (eraseClient inner)

/-! ## Facade: `src/structural/facade.py` -/

/-- The five subsystem strings (facade.py lines 37-63). -/
def create_thing : String := "Charger's thing is created!\n"

def add_shadow_to_thing : String := "Shadow added to charger's thing!\n"

def check_charger_in_shadow_table : String := "Charger got to shadow table!\n"

def check_charger_in_cloud_table : String := "Charger got to cloud table!\n"

def check_charger_in_es : String := "Charger got to UI!\n"

/-- `AWSFacade.initialize_charger` (facade.py lines 21-29). -/
def initialize_charger : String :=
  "Charger initialized:\n"
    ++ String.join [create_thing, add_shadow_to_thing,
        check_charger_in_shadow_table, check_charger_in_cloud_table,
        check_charger_in_es]

/-! ### Dictionary lemmas -/

theorem dictKeys_nil : dictKeys [] = [] := rfl

theorem dictKeys_cons (k : String) (v : Nat) (d : List (String × Nat)) :
    dictKeys ((k, v) :: d) = k :: dictKeys d := rfl

theorem dictGet_dictSet_self (d : List (String × Nat)) (k : String) (v : Nat) :
    dictGet (dictSet d k v) k = some v := by
  induction d with
  | nil => simp [dictGet, dictSet]
  | cons p d ih =>
    obtain ⟨k₁, v₁⟩ := p
    by_cases h : k₁ = k <;> simp [dictGet, dictSet, h, ih]

theorem dictGet_dictSet_of_ne (d : List (String × Nat)) (k : String) (v : Nat)
    (k₀ : String) (h : k ≠ k₀) :
    dictGet (dictSet d k v) k₀ = dictGet d k₀ := by
  induction d with
  | nil => simp [dictGet, dictSet, h]
  | cons p d ih =>
    obtain ⟨k₁, v₁⟩ := p
    by_cases h₁ : k₁ = k
    · subst h₁; simp [dictGet, dictSet, h]
    · by_cases h₂ : k₁ = k₀
      · subst h₂
        rw [dictSet, if_neg h₁, dictGet, if_pos rfl, dictGet, if_pos rfl]
      · simp [dictGet, dictSet, h₁, h₂, ih]

theorem dictKeys_dictSet (d : List (String × Nat)) (k : String) (v : Nat) :
    dictKeys (dictSet d k v) =
      if k ∈ dictKeys d then dictKeys d else dictKeys d ++ [k] := by
  induction d with
  | nil => simp [dictKeys, dictSet]
  | cons p d ih =>
    obtain ⟨k₁, v₁⟩ := p
    by_cases h : k₁ = k
    · subst h; simp [dictSet, dictKeys_cons]
    · have h' : ¬(k = k₁) := fun hk => h hk.symm
      simp only [dictSet, if_neg h, dictKeys_cons, ih]
      by_cases hm : k ∈ dictKeys d
      · simp [hm, h']
      · simp [hm, h']

theorem dictGet_eq_none_iff (d : List (String × Nat)) (k : String) :
    dictGet d k = none ↔ k ∉ dictKeys d := by
  induction d with
  | nil => simp [dictGet, dictKeys]
  | cons p d ih =>
    obtain ⟨k₁, v₁⟩ := p
    by_cases h : k₁ = k
    · subst h; simp [dictGet, dictKeys_cons]
    · have h' : ¬(k = k₁) := fun hk => h hk.symm
      simp [dictGet, dictKeys_cons, h, h', ih]

/-! ### `get_flyweight` step lemmas -/

/-- Cache hit: the state is unchanged and the stored reference is returned. -/
theorem get_flyweight_hit (st : FactoryState) (S : List String) (fid : Nat)
    (h : dictGet st.flyweights (get_key S) = some fid) :
    get_flyweight st S = (st, fid) := by
  simp [get_flyweight, h]

/-- Cache miss: a fresh `Flyweight` is constructed, stored, bound to the key,
and its reference returned. -/
theorem get_flyweight_miss (st : FactoryState) (S : List String)
    (h : dictGet st.flyweights (get_key S) = none) :
    get_flyweight st S =
      (⟨dictSet st.flyweights (get_key S) st.store.length,
        st.store ++ [⟨S⟩]⟩, st.store.length) := by
  simp [get_flyweight, h]

/-- A binding of the cache, once present, is preserved by any later
`get_flyweight` call (the method never removes or overwrites keys). -/
theorem dictGet_get_flyweight (st : FactoryState) (r : List String)
    (k : String) (v : Nat) (h : dictGet st.flyweights k = some v) :
    dictGet (get_flyweight st r).1.flyweights k = some v := by
  cases hm : dictGet st.flyweights (get_key r) with
  | some fid => rw [get_flyweight_hit st r fid hm]; exact h
  | none =>
    have hne : get_key r ≠ k := by
      intro he; rw [he, h] at hm; exact Option.noConfusion hm
    rw [get_flyweight_miss st r hm]
    simpa [dictGet_dictSet_of_ne _ _ _ _ hne] using h

/-- Cache bindings are preserved across any sequence of later requests. -/
theorem dictGet_runRequests (rs : List (List String)) (st : FactoryState)
    (k : String) (v : Nat) (h : dictGet st.flyweights k = some v) :
    dictGet (runRequests st rs).flyweights k = some v := by
  induction rs generalizing st with
  | nil => simpa [runRequests] using h
  | cons r rs ih =>
    have : runRequests st (r :: rs) = runRequests (get_flyweight st r).1 rs := by
      simp [runRequests, List.foldl_cons]
    rw [this]
    exact ih _ (dictGet_get_flyweight st r k v h)

/-- Right after `get_flyweight st S`, the cache binds `get_key S` to the
returned reference. -/
theorem dictGet_after_get_flyweight (st : FactoryState) (S : List String) :
    dictGet (get_flyweight st S).1.flyweights (get_key S) =
      some (get_flyweight st S).2 := by
  cases hm : dictGet st.flyweights (get_key S) with
  | some fid => rw [get_flyweight_hit st S fid hm]; exact hm
  | none => rw [get_flyweight_miss st S hm]; simp [dictGet_dictSet_self]

/-- C1: after a first `get_flyweight S` call, any later `get_flyweight S`
call — with arbitrarily many other requests in between — returns the very
same reference (object identity) and leaves the factory state unchanged, so
no new `Flyweight` is constructed. -/
theorem get_flyweight_idempotent (st : FactoryState) (S : List String)
    (rs : List (List String)) :
    get_flyweight (runRequests (get_flyweight st S).1 rs) S =
      (runRequests (get_flyweight st S).1 rs, (get_flyweight st S).2) := by
  have h1 : dictGet (runRequests (get_flyweight st S).1 rs).flyweights
      (get_key S) = some (get_flyweight st S).2 :=
    dictGet_runRequests rs _ _ _ (dictGet_after_get_flyweight st S)
  exact get_flyweight_hit _ S _ h1

/-! ### The cache key as a character-level join -/

theorem get_key_foldl_data (rest : List String) (acc : String) :
    (rest.foldl (fun a x => a ++ "_" ++ x) acc).data
      = acc.data ++ (rest.map (fun x => '_' :: x.data)).flatten := by
  induction rest generalizing acc with
  | nil => simp
  | cons x rest ih =>
    have hu : ("_" : String).data = ['_'] := rfl
    simp only [List.foldl_cons, ih, List.map_cons, List.flatten_cons,
      String.data_append, hu]
    simp [List.append_assoc]

theorem intercalate_cons₂ (sep a b : List Char) (l : List (List Char)) :
    List.intercalate sep (a :: b :: l) = a ++ sep ++ List.intercalate sep (b :: l) := by
  simp [List.intercalate, List.intersperse_cons_cons, List.append_assoc]

theorem intercalate_map_data (rest : List String) (s : List Char) :
    List.intercalate ['_'] (s :: rest.map String.data)
      = s ++ (rest.map (fun x => '_' :: x.data)).flatten := by
  induction rest generalizing s with
  | nil => simp [List.intercalate]
  | cons x rest ih =>
    rw [List.map_cons, intercalate_cons₂, ih]
    simp [List.append_assoc]

/-- `get_key` is, at the level of characters, the intercalation of the state
elements with the separator underscore. -/
theorem get_key_data (l : List String) :
    (get_key l).data = List.intercalate ['_'] (l.map String.data) := by
  cases l with
  | nil => simp [get_key, List.intercalate]
  | cons s rest =>
    show (rest.foldl (fun a x => a ++ "_" ++ x) s).data = _
    rw [get_key_foldl_data, List.map_cons, intercalate_map_data]

/-- C2: `get_key` is not stable under the input ordering: the two
enumerations of the set holding "a" and "b" — the same elements, as the
permutation conjunct records — are joined to the distinct keys `"a_b"` and
`"b_a"`, because the source joins the set in iteration order without
sorting. -/
theorem get_key_order_dependent :
    List.Perm ["a", "b"] ["b", "a"] ∧
    get_key ["a", "b"] = "a_b" ∧ get_key ["b", "a"] = "b_a" ∧
    get_key ["a", "b"] ≠ get_key ["b", "a"] := by decide

/-- C4 counterexample: the distinct states `{"a_a", "a"}` and `{"a_a_a"}`
share the key `"a_a_a"` — under either enumeration order of the former — so
`get_key` is not injective up to state equality. -/
theorem get_key_collision :
    get_key ["a_a", "a"] = get_key ["a_a_a"] ∧
    get_key ["a", "a_a"] = get_key ["a_a_a"] ∧
    (["a_a", "a"] : List String) ≠ ["a_a_a"] ∧
    ¬ List.Perm ["a_a", "a"] ["a_a_a"] := by decide

/-- C4 amended: key collisions can occur between distinct states whose
elements contain the separator; but restricted to nonempty states none of
whose elements contains an underscore, equal keys force equal state
enumerations (and hence identical state combinations). -/
theorem get_key_sep_free_injective (l₁ l₂ : List String)
    (h₁ : l₁ ≠ []) (h₂ : l₂ ≠ [])
    (hf₁ : ∀ s ∈ l₁, '_' ∉ s.data) (hf₂ : ∀ s ∈ l₂, '_' ∉ s.data)
    (h : get_key l₁ = get_key l₂) : l₁ = l₂ := by
  have hd : List.intercalate ['_'] (l₁.map String.data)
      = List.intercalate ['_'] (l₂.map String.data) := by
    rw [← get_key_data, ← get_key_data, h]
  have hx₁ : ∀ l ∈ l₁.map String.data, '_' ∉ l := by
    intro l hl
    obtain ⟨s, hs, rfl⟩ := List.mem_map.mp hl
    exact hf₁ s hs
  have hx₂ : ∀ l ∈ l₂.map String.data, '_' ∉ l := by
    intro l hl
    obtain ⟨s, hs, rfl⟩ := List.mem_map.mp hl
    exact hf₂ s hs
  have hls₁ : l₁.map String.data ≠ [] := by
    intro hc; exact h₁ (by simpa using hc)
  have hls₂ : l₂.map String.data ≠ [] := by
    intro hc; exact h₂ (by simpa using hc)
  have e₁ := List.splitOn_intercalate (l₁.map String.data) '_' hx₁ hls₁
  have e₂ := List.splitOn_intercalate (l₂.map String.data) '_' hx₂ hls₂
  have hmap : l₁.map String.data = l₂.map String.data := by
    rw [← e₁, ← e₂, hd]
  exact List.map_injective_iff.mpr (fun a b hab => String.ext hab) hmap

/-- Witness for the amended C4 theorem at a concrete separator-free input. -/
theorem get_key_sep_free_injective_witness :
    (["ab", "cd"] : List String) = ["ab", "cd"] :=
  get_key_sep_free_injective ["ab", "cd"] ["ab", "cd"]
    (by decide) (by decide) (by decide) (by decide) (by decide)

/-! ### Cache size -/

theorem runRequests_cons (st : FactoryState) (r : List String)
    (rs : List (List String)) :
    runRequests st (r :: rs) = runRequests (get_flyweight st r).1 rs := rfl

theorem flyweightCount_eq_keys_length (st : FactoryState) :
    flyweightCount st = (dictKeys st.flyweights).length := by
  simp [flyweightCount, dictKeys]

/-- Requests whose keys are fresh and pairwise distinct each append their key
to the cache, in order. -/
theorem dictKeys_runRequests_fresh (l : List (List String)) (st : FactoryState)
    (hnd : (l.map get_key).Nodup)
    (hfresh : ∀ r ∈ l, get_key r ∉ dictKeys st.flyweights) :
    dictKeys (runRequests st l).flyweights
      = dictKeys st.flyweights ++ l.map get_key := by
  induction l generalizing st with
  | nil => simp [runRequests]
  | cons r l ih =>
    have hr0 : get_key r ∉ dictKeys st.flyweights := hfresh r (List.mem_cons_self r l)
    have hmiss : dictGet st.flyweights (get_key r) = none :=
      (dictGet_eq_none_iff _ _).mpr hr0
    rw [runRequests_cons, get_flyweight_miss st r hmiss]
    have hnd2 : (get_key r :: l.map get_key).Nodup := by
      simpa only [List.map_cons] using hnd
    have hnd' := List.nodup_cons.mp hnd2
    have hk : dictKeys (dictSet st.flyweights (get_key r) st.store.length)
        = dictKeys st.flyweights ++ [get_key r] := by
      rw [dictKeys_dictSet, if_neg hr0]
    have hfresh' : ∀ r₀ ∈ l, get_key r₀ ∉
        dictKeys (dictSet st.flyweights (get_key r) st.store.length) := by
      intro r₀ hr₀
      rw [hk]
      simp only [List.mem_append, List.mem_singleton]
      rintro (hc | hc)
      · exact hfresh r₀ (List.mem_cons_of_mem r hr₀) hc
      · exact hnd'.1 (hc ▸ List.mem_map_of_mem get_key hr₀)
    rw [ih _ hnd'.2 hfresh']
    simp [hk, List.append_assoc]

/-- Requests whose keys are already cached leave the state untouched. -/
theorem runRequests_hits (l : List (List String)) (st : FactoryState)
    (hdup : ∀ r ∈ l, get_key r ∈ dictKeys st.flyweights) :
    runRequests st l = st := by
  induction l with
  | nil => rfl
  | cons r l ih =>
    cases hv : dictGet st.flyweights (get_key r) with
    | none =>
      exact absurd (hdup r (List.mem_cons_self r l))
        ((dictGet_eq_none_iff _ _).mp hv)
    | some v =>
      rw [runRequests_cons, get_flyweight_hit st r v hv]
      exact ih fun r₀ hr₀ => hdup r₀ (List.mem_cons_of_mem r hr₀)

/-- C3 counterexample: two pairwise-distinct states (N = 2, M = 0) whose
keys collide leave the cache with 1 flyweight, not 2. -/
theorem cache_size_two_distinct_states_one_entry :
    flyweightCount (runRequests emptyFactory [["a_a_a"], ["a_a", "a"]]) = 1 ∧
    (["a_a_a"] : List String) ≠ ["a_a", "a"] := by decide

/-- C3 amended: after requesting N combinations with pairwise-distinct cache
keys plus M further requests whose keys are among those N, the count reported
by `list_flyweights` is N, not N + M.  Concretely: seeding the factory with
the five distinct triples of the demo reports count 5; a sixth previously
unseen triple raises it to 6; re-requesting one of the first five leaves the
count at 6, changes nothing, and returns the instance constructed during
seeding (reference 3, whose stored state is that very triple). -/
theorem flyweight_cache_size (distincts dups : List (List String))
    (hnd : (distincts.map get_key).Nodup)
    (hdup : ∀ r ∈ dups, get_key r ∈ distincts.map get_key) :
    flyweightCount (runRequests emptyFactory (distincts ++ dups))
        = distincts.length
    ∧ flyweightCount (factoryInit emptyFactory initialCars) = 5
    ∧ flyweightCount
        (get_flyweight (factoryInit emptyFactory initialCars)
          ["BMW", "X1", "red"]).1 = 6
    ∧ get_flyweight
        (get_flyweight (factoryInit emptyFactory initialCars)
          ["BMW", "X1", "red"]).1 ["BMW", "M5", "red"]
        = ((get_flyweight (factoryInit emptyFactory initialCars)
            ["BMW", "X1", "red"]).1, 3)
    ∧ (factoryInit emptyFactory initialCars).store[3]?
        = some ⟨["BMW", "M5", "red"]⟩ := by
  refine ⟨?_, by decide, by decide, by decide, by decide⟩
  have hrun : runRequests emptyFactory (distincts ++ dups)
      = runRequests (runRequests emptyFactory distincts) dups := by
    simp [runRequests, List.foldl_append]
  have hkeys : dictKeys (runRequests emptyFactory distincts).flyweights
      = distincts.map get_key := by
    have := dictKeys_runRequests_fresh distincts emptyFactory hnd
      (by intro r hr; simp [emptyFactory, dictKeys])
    simpa [emptyFactory, dictKeys] using this
  have hdup' : ∀ r ∈ dups,
      get_key r ∈ dictKeys (runRequests emptyFactory distincts).flyweights := by
    intro r hr; rw [hkeys]; exact hdup r hr
  rw [hrun, runRequests_hits dups _ hdup', flyweightCount_eq_keys_length,
    hkeys, List.length_map]

/-- Witness for the amended C3 theorem: two fresh states and one duplicate
request give a cache of two flyweights. -/
theorem flyweight_cache_size_witness :
    flyweightCount (runRequests emptyFactory ([["a"], ["b"]] ++ [["b"]])) = 2
    ∧ flyweightCount (factoryInit emptyFactory initialCars) = 5
    ∧ flyweightCount
        (get_flyweight (factoryInit emptyFactory initialCars)
          ["BMW", "X1", "red"]).1 = 6
    ∧ get_flyweight
        (get_flyweight (factoryInit emptyFactory initialCars)
          ["BMW", "X1", "red"]).1 ["BMW", "M5", "red"]
        = ((get_flyweight (factoryInit emptyFactory initialCars)
            ["BMW", "X1", "red"]).1, 3)
    ∧ (factoryInit emptyFactory initialCars).store[3]?
        = some ⟨["BMW", "M5", "red"]⟩ :=
  flyweight_cache_size [["a"], ["b"]] [["b"]] (by decide) (by decide)

/-! ### The class-level cache shared by all factory instances -/

theorem factoryInit_cons (st : FactoryState) (r : List String)
    (l : List (List String)) :
    factoryInit st (r :: l)
      = factoryInit
          ⟨dictSet st.flyweights (get_key r) st.store.length,
           st.store ++ [⟨r⟩]⟩ l := rfl

/-- Bindings whose key is not re-seeded survive the construction of another
factory. -/
theorem dictGet_factoryInit_of_not_mem (l : List (List String))
    (st : FactoryState) (k : String) (v : Nat)
    (h : dictGet st.flyweights k = some v) (hk : k ∉ l.map get_key) :
    dictGet (factoryInit st l).flyweights k = some v := by
  induction l generalizing st with
  | nil => simpa [factoryInit] using h
  | cons r l ih =>
    rw [factoryInit_cons]
    have hne : get_key r ≠ k := by
      intro he
      exact hk (he ▸ List.mem_cons_self (get_key r) (l.map get_key))
    refine ih _ ?_ fun hc => hk (List.mem_cons_of_mem _ hc)
    simpa [dictGet_dictSet_of_ne _ _ _ _ hne] using h

/-- Seeding a factory with fresh, pairwise-distinct keys grows the shared
mapping by exactly the number of seeds. -/
theorem flyweightCount_factoryInit_fresh (l : List (List String))
    (st : FactoryState) (hnd : (l.map get_key).Nodup)
    (hfresh : ∀ k ∈ l.map get_key, dictGet st.flyweights k = none) :
    flyweightCount (factoryInit st l) = flyweightCount st + l.length := by
  induction l generalizing st with
  | nil => simp [factoryInit]
  | cons r l ih =>
    rw [factoryInit_cons]
    have hnd2 : (get_key r :: l.map get_key).Nodup := by
      simpa only [List.map_cons] using hnd
    have hnd' := List.nodup_cons.mp hnd2
    have hr0 : get_key r ∉ dictKeys st.flyweights :=
      (dictGet_eq_none_iff _ _).mp
        (hfresh (get_key r) (List.mem_cons_self _ _))
    have hstep : (dictSet st.flyweights (get_key r) st.store.length).length
        = st.flyweights.length + 1 := by
      have := dictKeys_dictSet st.flyweights (get_key r) st.store.length
      rw [if_neg hr0] at this
      have hl := congrArg List.length this
      simpa [dictKeys] using hl
    have hfresh' : ∀ k ∈ l.map get_key,
        dictGet (dictSet st.flyweights (get_key r) st.store.length) k = none := by
      intro k hkm
      have hne : get_key r ≠ k := fun he => hnd'.1 (he ▸ hkm)
      rw [dictGet_dictSet_of_ne _ _ _ _ hne]
      exact hfresh k (List.mem_cons_of_mem _ hkm)
    rw [ih _ hnd'.2 hfresh']
    simp [flyweightCount, hstep]
    omega

/-- C9: `_flyweights` is class-level, so in the model there is a single
mapping threaded through every factory: constructing a second factory
(`factoryInit`) on top of an existing state keeps every binding whose key it
does not re-seed — so flyweights seeded through one instance stay visible
through any other — and, when its seeds are fresh and distinct, raises the
shared count by exactly its number of seeds instead of starting from an
empty mapping. -/
theorem factoryInit_shared_cache (st : FactoryState) (l : List (List String))
    (k : String) (v : Nat)
    (h : dictGet st.flyweights k = some v) (hk : k ∉ l.map get_key)
    (hnd : (l.map get_key).Nodup)
    (hfresh : ∀ k₀ ∈ l.map get_key, dictGet st.flyweights k₀ = none) :
    dictGet (factoryInit st l).flyweights k = some v
    ∧ flyweightCount (factoryInit st l) = flyweightCount st + l.length :=
  ⟨dictGet_factoryInit_of_not_mem l st k v h hk,
   flyweightCount_factoryInit_fresh l st hnd hfresh⟩

/-- Witness for C9: a first factory seeds `{"a"}`; a second factory seeding
`{"b"}` keeps the binding for `"a"` and the shared count becomes 2. -/
theorem factoryInit_shared_cache_witness :
    dictGet (factoryInit (factoryInit emptyFactory [["a"]]) [["b"]]).flyweights
        "a" = some 0
    ∧ flyweightCount (factoryInit (factoryInit emptyFactory [["a"]]) [["b"]])
        = flyweightCount (factoryInit emptyFactory [["a"]]) + [["b"]].length :=
  factoryInit_shared_cache (factoryInit emptyFactory [["a"]]) [["b"]] "a" 0
    (by decide) (by decide) (by decide) (by decide)

/-! ### Adapter theorems -/

/-- C6: `Adapter.request` parses the fixed XML byte string of
`Adaptee.specific_request` into exactly the dict
`{"xml_data": {"some_critical_data": "very_much_business_value"}}`, so the
`isinstance(data, dict)` assertion of `client_code` holds for an `Adapter`
and the call succeeds. -/
theorem Adapter_request_converts :
    Adapter_request
      = some (JVal.dict [("xml_data",
          JVal.dict [("some_critical_data",
            JVal.str "very_much_business_value")])])
    ∧ client_code .adapter
      = .ok (JVal.dict [("xml_data",
          JVal.dict [("some_critical_data",
            JVal.str "very_much_business_value")])]) :=
  ⟨rfl, rfl⟩

/-- C5: `client_code` on an `Adaptee` — which lacks the shared `request`
method — raises `AttributeError`; the demo's `try/except` catches exactly
that error and prints the expected message; and `client_code` on a `Target`
or an `Adapter` raises nothing (even the `isinstance` assertion passes). -/
theorem client_code_failure_paths :
    client_code .adaptee = .error .attributeError
    ∧ adaptee_demo_section
        = .ok (.inr "Adaptee doesn't have 'request' method")
    ∧ client_code .target = .ok Target_request
    ∧ client_code .adapter
        = .ok (JVal.dict [("xml_data",
            JVal.dict [("some_critical_data",
              JVal.str "very_much_business_value")])]) :=
  ⟨rfl, rfl, rfl, rfl⟩

/-! ### Bridge theorems -/

/-- C8 counterexample: two runs of the bridge demo whose `random.choices`
draws differ — both draws being possible 6-character tokens — make
`AbstractAPI.authenticate` over an `ExternalAPIImplementation` return two
different strings, so the script's behavior is not fixed at the source
level. -/
theorem external_authenticate_two_runs_differ :
    isValidToken "AAAAAA" = true ∧ isValidToken "0Z9QX2" = true ∧
    external_authenticate "AAAAAA" ≠ external_authenticate "0Z9QX2" := by
  decide

/-- C8 amended: two runs of a script produce identical output except where
one of the two nondeterminism sources of the repository feeds it.  The
bridge's `ExternalAPIImplementation` draws a random token: `authenticate`
over it agrees between two runs exactly when the draws agree, while
`authenticate` over a `CloudAPIImplementation` is one fixed string.  The
flyweight script's printed cache keys follow the interpreter's
hash-randomized set iteration order: seeding the same five states under a
different enumeration order changes the output of `list_flyweights`.  The
facade's `initialize_charger` and the decorator demo's decorated
`report_data` are fixed strings. -/
theorem scripts_deterministic_up_to_token :
    cloud_authenticate
      = "Logged to cloud platform as user CloudUser with role CloudAPIImplementation"
    ∧ initialize_charger
      = "Charger initialized:\nCharger's thing is created!\nShadow added to charger's thing!\nCharger got to shadow table!\nCharger got to cloud table!\nCharger got to UI!\n"
    ∧ (report_data (DataReporter.mqtt none (.shadow .basic))).1
      = "I'm reporting basic charging session data to device' shadow and added meter values to device' shadow and sent meter values to MQTT topic"
    ∧ list_flyweights (factoryInit emptyFactory (initialCars.map List.reverse))
      ≠ list_flyweights (factoryInit emptyFactory initialCars)
    ∧ ∀ t₁ t₂ : String,
        external_authenticate t₁ = external_authenticate t₂ ↔ t₁ = t₂ := by
  refine ⟨rfl, rfl, rfl, by decide, fun t₁ t₂ => ⟨fun h => ?_, fun h => h ▸ rfl⟩⟩
  have hd := congrArg String.data h
  simp only [external_authenticate, external_login, external_get_user,
    String.data_append, List.append_assoc] at hd
  exact String.ext (List.append_cancel_right (List.append_cancel_left hd))

/-! ### Composite theorems -/

/-- C7 counterexample: `LoadCluster.add_node` stores the added child in
`_children`, state that persists beyond the call: the master cluster's
`start_load` output changes after an earlier `add_node` call, so an
operation's result depends on earlier calls on that object. -/
theorem cluster_state_persists :
    add_node masterWorld 0 1 ≠ masterWorld
    ∧ start_load 2 masterWorld 0 = "Cluster Master Loader started load:\n"
    ∧ start_load 2 (add_node masterWorld 0 1) 0
        = "Cluster Master Loader started load:\nSimple load node started load.\n"
    ∧ start_load 2 (add_node masterWorld 0 1) 0 ≠ start_load 2 masterWorld 0 := by
  decide

/-- C10: on a leaf `LoadNode`, `add_node` and `remove_node` run the base
class bodies, which are `pass`: they raise no error, return nothing, and
leave the whole object world — the leaf, the argument component and every
other object — unchanged. -/
theorem leaf_child_ops_noop (w : LoaderWorld) (l c : Nat) (o : LoaderObj)
    (h : w[l]? = some o) (hk : o.kind = .node) :
    add_node w l c = w ∧ remove_node w l c = Except.ok w := by
  constructor
  · simp only [add_node, h, hk]
  · simp only [remove_node, h, hk]

/-- Witness for C10 at the demo's concrete leaf. -/
theorem leaf_child_ops_noop_witness :
    add_node masterWorld 1 0 = masterWorld
    ∧ remove_node masterWorld 1 0 = Except.ok masterWorld :=
  leaf_child_ops_noop masterWorld 1 0 ⟨.node, "Simple load node", none, []⟩
    (by decide) (by decide)

/-! ### Decorator theorems -/

/-- The string reported by a decorator chain depends only on the part of the
object fixed at construction, not on the mutable `_mqtt_client` fields. -/
theorem report_data_congr (r₁ : DataReporter) :
    ∀ r₂ : DataReporter, eraseClient r₁ = eraseClient r₂ →
      (report_data r₁).1 = (report_data r₂).1 := by
  induction r₁ with
  | basic =>
    intro r₂ h
    cases r₂ with
    | basic => rfl
    | shadow inner => simp [eraseClient] at h
    | mqtt c inner => simp [eraseClient] at h
  | shadow inner ih =>
    intro r₂ h
    cases r₂ with
    | basic => simp [eraseClient] at h
    | shadow inner₂ =>
      simp only [eraseClient, DataReporter.shadow.injEq] at h
      simp [report_data, ih inner₂ h]
    | mqtt c₂ inner₂ => simp [eraseClient] at h
  | mqtt c inner ih =>
    intro r₂ h
    cases r₂ with
    | basic => simp [eraseClient] at h
    | shadow inner₂ => simp [eraseClient] at h
    | mqtt c₂ inner₂ =>
      simp only [eraseClient, DataReporter.mqtt.injEq, true_and] at h
      simp [report_data, ih inner₂ h]

/-- `report_data` only rewrites `_mqtt_client` fields: the construction-time
part of the object is unchanged by a call. -/
theorem eraseClient_report_data (r : DataReporter) :
    eraseClient (report_data r).2 = eraseClient r := by
  induction r <;> simp [report_data, eraseClient, *]

/-- C7 amended: outside the composite script, results do not depend on
earlier calls: a decorator chain reports a string that is independent of the
persisted `_mqtt_client` values, so calling `report_data` again on the
object left by an earlier call — the only mutation any of the Adapter,
Bridge, Decorator or Facade objects performs — reports the same string.
(The composite containers, by contrast, do store children across calls.) -/
theorem report_data_state_independent :
    (∀ r₁ r₂ : DataReporter, eraseClient r₁ = eraseClient r₂ →
        (report_data r₁).1 = (report_data r₂).1)
    ∧ ∀ r : DataReporter,
        (report_data (report_data r).2).1 = (report_data r).1 :=
  ⟨fun r₁ r₂ h => report_data_congr r₁ r₂ h,
   fun r => report_data_congr (report_data r).2 r (eraseClient_report_data r)⟩

/-- Witness for the amended C7 theorem: the MQTT decorator before its first
call (`_mqtt_client = None`) and after a call (`"MQTT Client down"`) report
the same string. -/
theorem report_data_state_independent_witness :
    (report_data (DataReporter.mqtt none .basic)).1
      = (report_data (DataReporter.mqtt (some "MQTT Client down") .basic)).1 :=
  report_data_state_independent.1 (DataReporter.mqtt none .basic)
    (DataReporter.mqtt (some "MQTT Client down") .basic) (by decide)

end Patterns
